import Mathlib

set_option maxRecDepth 16384

/-!
Verification of the Celebration House booking backend (src/server.js).

The file shallowly embeds the parts of the server that the properties
below talk about: the resilient query executor (queryWithRetry), the
filter query builder of GET /api/bookings/filter, the request
validation of POST /api/bookings and PUT /api/bookings/:id, the
two-phase create flow, and the GET /api/notifications handler.
Database effects are made explicit: handlers return the statements
they would issue together with the HTTP outcome, and the executor is
driven by an environment mapping each attempt number to the outcome
of that attempt.
-/

/-! ## Basic string machinery (models of the JavaScript primitives) -/

/-- Does the pattern occur as a contiguous infix of the character list?
Model of the JavaScript method String.includes. -/
def hasInfix (s pat : List Char) : Bool :=
  pat.isPrefixOf s ||
    match s with
    | [] => false
    | _ :: t => hasInfix t pat

/-- Model of JavaScript str.includes(pat). -/
def strIncludes (s pat : String) : Bool :=
  hasInfix s.data pat.data

/-- Model of JavaScript String.prototype.toLowerCase on ASCII data. -/
def jsToLower (s : String) : String :=
  String.mk (s.data.map Char.toLower)

/-- Model of JavaScript s.slice(0, n) on a string. -/
def strTake (s : String) (n : Nat) : String :=
  String.mk (s.data.take n)

/-- Model of JavaScript s.padStart(n, c): left-pad with c up to length n,
leaving strings already at least that long unchanged. -/
def jsPadStart (s : String) (n : Nat) (c : Char) : String :=
  if n ≤ s.length then s else String.mk (List.replicate (n - s.length) c) ++ s

/-- Decimal digits of a positive natural, most significant first.
The first argument is fuel; it is consumed once per digit, so any fuel
at least the number itself suffices. -/
def natToChars : Nat → Nat → List Char
  | 0, _ => []
  | _ + 1, 0 => []
  | fuel + 1, n + 1 => natToChars fuel ((n + 1) / 10) ++ [Nat.digitChar ((n + 1) % 10)]

/-- Model of JavaScript String(n) for a nonnegative integer n. -/
def jsNatToString (n : Nat) : String :=
  if n = 0 then "0" else String.mk (natToChars n n)

/-- Model of JavaScript String(n) for an integer. -/
def jsIntToString (n : Int) : String :=
  if n < 0 then "-" ++ jsNatToString n.natAbs else jsNatToString n.toNat

/-- Value of a decimal digit string (ignoring non-digit garbage guards;
used on digit-only data). -/
def digitsToNat (cs : List Char) : Nat :=
  cs.foldl (fun a c => a * 10 + (c.toNat - 48)) 0

/-! ## JavaScript values and truthiness -/

/-- The subset of JavaScript values that can appear in a parsed JSON
request body (plus undefined for an absent key). Numbers are modelled
as integers, enough for the monetary amounts the API handles. -/
inductive JsVal where
  | undef
  | null
  | str (s : String)
  | num (n : Int)
  | bool (b : Bool)
deriving DecidableEq

/-- JavaScript truthiness of a body field, as tested by the guard
if (!customerName || ...) in the handlers. -/
def truthy : JsVal → Bool
  | .undef => false
  | .null => false
  | .str s => s != ""
  | .num n => n != 0
  | .bool b => b

/-- Model of JavaScript string coercion String(v), as performed by
RegExp.prototype.test on a non-string argument. -/
def jsToString : JsVal → String
  | .undef => "undefined"
  | .null => "null"
  | .str s => s
  | .num n => jsIntToString n
  | .bool true => "true"
  | .bool false => "false"

/-! ## The resilient query executor: queryWithRetry (src/server.js lines 37-53) -/

/-- A header returned by the driver for a mutating statement; the
fall-through object literal of queryWithRetry carries no insertId,
hence the Option. -/
structure MutHeader where
  affectedRows : Nat
  insertId : Option Nat
deriving DecidableEq

/-- What one successful pool.query yields after the handler takes
result[0]: either a row list or a mutation header. -/
inductive QueryResult where
  | rows (rs : List Nat)
  | header (h : MutHeader)
deriving DecidableEq

/-- Outcome of a single attempt against the pool: result[0] on success,
or the thrown error message. Row payloads are abstracted to tags since
queryWithRetry never inspects them. -/
inductive Outcome where
  | success (r : QueryResult)
  | failure (msg : String)

/-- The value of the return statement placed after the while loop of
queryWithRetry: an empty row list when the lowercased statement text
contains the word select, otherwise a header with affectedRows zero. -/
def retriesExhausted (sql : String) : QueryResult :=
  if strIncludes (jsToLower sql) "select" then .rows [] else .header ⟨0, none⟩

/-- Full observable behaviour of one queryWithRetry call: the returned
value or thrown error, how many attempts were issued, and the backoff
waits (in milliseconds) performed between attempts. -/
structure RetryTrace where
  result : Except String QueryResult
  attempts : Nat
  waitsMs : List Nat

/-- The while loop of queryWithRetry. The environment maps the attempt
number to the outcome of that attempt. The retries argument is the current
value of the mutable retries variable; the guard retries > 1 and the
decrement mirror the source exactly. -/
def queryWithRetryAux (env : Nat → Outcome) (sql : String) :
    Nat → Nat → List Nat → RetryTrace
  | attemptNo, 0, waits => ⟨.ok (retriesExhausted sql), attemptNo, waits⟩
  | attemptNo, r + 1, waits =>
    match env attemptNo with
    | .success res => ⟨.ok res, attemptNo + 1, waits⟩
    | .failure msg =>
      if strIncludes msg "closed state" && decide (r + 1 > 1) then
        queryWithRetryAux env sql (attemptNo + 1) r (waits ++ [1000])
      else ⟨.error msg, attemptNo + 1, waits⟩

/-- queryWithRetry with its default budget retries = 3. -/
def queryWithRetry (env : Nat → Outcome) (sql : String) : RetryTrace :=
  queryWithRetryAux env sql 0 3 []

/-- An environment in which every attempt fails with a connection
closed-state error. -/
def envAllClosed : Nat → Outcome :=
  fun _ => .failure "connection is in closed state"

/-! ## Format checks (models of the regular expression tests) -/

/-- Model of the test of the anchored regular expression that accepts
exactly ten ASCII digits, used for contactNumber. -/
def contactFormatOk (s : String) : Bool :=
  s.length == 10 && s.data.all Char.isDigit

/-- Model of the anchored date regular expression: four digits, a
hyphen, two digits, a hyphen, two digits. -/
def dateFormatOk (s : String) : Bool :=
  match s.data with
  | [y1, y2, y3, y4, h1, m1, m2, h2, d1, d2] =>
    y1.isDigit && y2.isDigit && y3.isDigit && y4.isDigit && h1 == '-' &&
      m1.isDigit && m2.isDigit && h2 == '-' && d1.isDigit && d2.isDigit
  | _ => false

/-- Model of the anchored time regular expression HH:MM. -/
def timeFormatHHMM (s : String) : Bool :=
  match s.data with
  | [h1, h2, c, m1, m2] =>
    h1.isDigit && h2.isDigit && c == ':' && m1.isDigit && m2.isDigit
  | _ => false

/-- Model of the anchored time regular expression HH:MM:SS. -/
def timeFormatHHMMSS (s : String) : Bool :=
  match s.data with
  | [h1, h2, c1, m1, m2, c2, s1, s2] =>
    h1.isDigit && h2.isDigit && c1 == ':' && m1.isDigit && m2.isDigit &&
      c2 == ':' && s1.isDigit && s2.isDigit
  | _ => false

/-- Model of JavaScript parseInt on its decimal inputs: skip leading
whitespace, read an optional sign, then the longest digit prefix; no
digits means NaN, modelled as none. -/
def jsParseInt (s : String) : Option Int :=
  let cs := s.data.dropWhile fun c => c.isWhitespace
  let signed : Int × List Char :=
    match cs with
    | c :: t => if c == '-' then (-1, t) else if c == '+' then (1, t) else (1, cs)
    | [] => (1, [])
  let ds := signed.2.takeWhile fun c => c.isDigit
  if ds.isEmpty then none else some (signed.1 * (digitsToNat ds : Int))

/-! ## Data model: the bookings table -/

/-- One row of the bookings table. eventDate is stored in ISO form
YYYY-MM-DD and eventTime as HH:MM, the storage formats the INSERT
receives from a validated request. -/
structure Booking where
  id : Nat
  uniqueId : String
  customerName : String
  contactNumber : String
  eventDate : String
  eventTime : String
  branch : String
  selectedPackage : String
  amount : Int
  celebrationType : String
deriving DecidableEq

/-- Year read off a stored YYYY-MM-DD date, as the SQL YEAR function. -/
def dateYearNum (s : String) : Int :=
  digitsToNat (s.data.take 4)

/-- Month read off a stored YYYY-MM-DD date, as the SQL MONTH function. -/
def dateMonthNum (s : String) : Int :=
  digitsToNat ((s.data.drop 5).take 2)

/-! ## The filter query builder (GET /api/bookings/filter, lines 67-101) -/

/-- One predicate fragment appended to the WHERE clause, together with
the data it binds. -/
inductive Cond where
  | dateEq (d : String)
  | monthYearEq (m y : Int)
  | branchEq (b : String)
deriving DecidableEq

/-- Truthiness of an optional query-string parameter: present and not
the empty string. -/
def optTruthy : Option String → Bool
  | some s => s != ""
  | none => false

/-- The branch step of the builder, independent of the date and
month/year steps: a branch predicate is appended when the parameter is
truthy and differs from the sentinel All. -/
def branchConds (branch : Option String) : List Cond :=
  if optTruthy branch && (branch.getD "" != "All") then
    [Cond.branchEq (branch.getD "")]
  else []

/-- The WHERE-clause construction of GET /api/bookings/filter: the date
branch, else the month/year branch, then independently the branch
predicate; validation failures return the 400 message of the handler. -/
def buildFilter (date month year branch : Option String) :
    Except String (List Cond) :=
  let primary : Except String (List Cond) :=
    if optTruthy date then
      if dateFormatOk (date.getD "") then .ok [Cond.dateEq (date.getD "")]
      else .error "Invalid date format: Use YYYY-MM-DD"
    else if optTruthy month && optTruthy year then
      let mo := jsParseInt (month.getD "")
      let yr := jsParseInt (year.getD "")
      if mo.isNone || decide (mo.getD 0 < 1) || decide (mo.getD 0 > 12) ||
          yr.isNone || decide (yr.getD 0 < 1000) then
        .error "Invalid month or year"
      else .ok [Cond.monthYearEq (mo.getD 0) (yr.getD 0)]
    else .ok []
  match primary with
  | .error e => .error e
  | .ok cs => .ok (cs ++ branchConds branch)

/-- Row semantics of one predicate fragment. -/
def matchesCond (c : Cond) (b : Booking) : Bool :=
  match c with
  | .dateEq d => b.eventDate == d
  | .monthYearEq m y => dateMonthNum b.eventDate == m && dateYearNum b.eventDate == y
  | .branchEq s => b.branch == s

/-- Rows selected by the conjunction of the predicate fragments. -/
def filterRows (db : List Booking) (conds : List Cond) : List Booking :=
  db.filter fun b => conds.all fun c => matchesCond c b

/-- HTTP outcome of the filter route. -/
inductive FilterResponse where
  | badRequest (msg : String)
  | notFound
  | ok (rows : List Booking)
deriving DecidableEq

/-- GET /api/bookings/filter under a successfully answering database:
build the predicate, run it, map an empty result to 404. -/
def filterHandler (db : List Booking) (date month year branch : Option String) :
    FilterResponse :=
  match buildFilter date month year branch with
  | .error e => .badRequest e
  | .ok conds =>
    let rows := filterRows db conds
    if rows.length == 0 then .notFound else .ok rows

/-! ## The literal SQL text built by the filter route -/

/-- The single-quote character of the SQL literals, kept out of the
string literals below for hygiene. -/
def sqlQuote : String := String.singleton (Char.ofNat 39)

/-- The question-mark placeholder character. -/
def qMarkChar : Char := '?'

/-- The SELECT text the filter route starts from, up to WHERE 1=1. -/
def filterBaseQuery : String :=
  "\n        SELECT id, uniqueId, customerName, contactNumber, \n               DATE_FORMAT(eventDate, " ++
    sqlQuote ++ "%d-%m-%Y" ++ sqlQuote ++ ") AS eventDate, \n               TIME_FORMAT(eventTime, " ++
    sqlQuote ++ "%H:%i" ++ sqlQuote ++ ") AS eventTime, \n               branch, selectedPackage, amount, celebrationType \n        FROM bookings \n        WHERE 1=1\n    "

/-- A positional query parameter: the route pushes the date and branch
as strings and the parsed month and year as integers. -/
inductive Val where
  | vstr (s : String)
  | vint (n : Int)
deriving DecidableEq

/-- The text appended to the query for one predicate fragment. -/
def condFragment : Cond → String
  | .dateEq _ => " AND eventDate = ?"
  | .monthYearEq _ _ => " AND MONTH(eventDate) = ? AND YEAR(eventDate) = ?"
  | .branchEq _ => " AND branch = ?"

/-- The values pushed onto the parameter list for one fragment, in the
order of the corresponding push calls. -/
def condParams : Cond → List Val
  | .dateEq d => [.vstr d]
  | .monthYearEq m y => [.vint m, .vint y]
  | .branchEq b => [.vstr b]

/-- The appended fragments, in order. -/
def fragsString : List Cond → String
  | [] => ""
  | c :: cs => condFragment c ++ fragsString cs

/-- The full statement text the route executes. -/
def filterQueryString (conds : List Cond) : String :=
  filterBaseQuery ++ fragsString conds

/-- The full parameter list the route executes, in push order. -/
def filterParams : List Cond → List Val
  | [] => []
  | c :: cs => condParams c ++ filterParams cs

/-- Rendering of a parameter value at its placeholder, for stating
that positional binding associates the right value to the right
column. -/
def renderVal : Val → String
  | .vstr s => sqlQuote ++ s ++ sqlQuote
  | .vint n => jsIntToString n

/-- Substitute the parameter list into the placeholders from left to
right; none when the placeholder count and the parameter count
disagree. -/
def substQmarks : List Char → List Val → Option (List Char)
  | [], [] => some []
  | [], _ :: _ => none
  | c :: cs, ps =>
    if c == qMarkChar then
      match ps with
      | [] => none
      | p :: ps2 => (substQmarks cs ps2).map fun r => (renderVal p).data ++ r
    else (substQmarks cs ps).map fun r => c :: r

/-- Specification-side reading of one fragment, with each value written
directly where its placeholder stands: the text the fragment denotes
when the i-th parameter binds the i-th placeholder. -/
def condInlineSpec : Cond → String
  | .dateEq d => " AND eventDate = " ++ renderVal (.vstr d)
  | .monthYearEq m y =>
    " AND MONTH(eventDate) = " ++ renderVal (.vint m) ++
      " AND YEAR(eventDate) = " ++ renderVal (.vint y)
  | .branchEq b => " AND branch = " ++ renderVal (.vstr b)

/-- Specification-side reading of the whole clause list. -/
def fragsInlineSpec : List Cond → String
  | [] => ""
  | c :: cs => condInlineSpec c ++ fragsInlineSpec cs

/-! ## Request bodies and the write handlers -/

/-- The destructured request body of the create and update routes. -/
structure Body where
  customerName : JsVal
  contactNumber : JsVal
  eventDate : JsVal
  eventTime : JsVal
  branch : JsVal
  selectedPackage : JsVal
  amount : JsVal
  celebrationType : JsVal
deriving DecidableEq

/-- The truthiness guard shared by both write routes. -/
def requiredAllTruthy (b : Body) : Bool :=
  truthy b.customerName && truthy b.contactNumber && truthy b.eventDate &&
    truthy b.eventTime && truthy b.branch && truthy b.selectedPackage &&
    truthy b.amount && truthy b.celebrationType

/-- The VALUES parameters of the INSERT issued by the create route. -/
def insertParamsOf (b : Body) : List JsVal :=
  [b.customerName, b.contactNumber, b.eventDate, b.eventTime, b.branch,
    b.selectedPackage, b.amount, b.celebrationType]

/-- Outcome of the validation part of POST /api/bookings: either a 400
returned before any database access, or the INSERT with its
parameters. -/
inductive CreateOutcome where
  | badRequest (msg : String)
  | insert (ps : List JsVal)
deriving DecidableEq

/-- POST /api/bookings up to its first database call (lines 166-176):
only the truthiness guard stands between the body and the INSERT. -/
def postValidate (b : Body) : CreateOutcome :=
  if !truthy b.customerName || !truthy b.contactNumber || !truthy b.eventDate ||
      !truthy b.eventTime || !truthy b.branch || !truthy b.selectedPackage ||
      !truthy b.amount || !truthy b.celebrationType then
    .badRequest "All fields required"
  else .insert (insertParamsOf b)

/-- Outcome of the validation part of PUT /api/bookings/:id: either a
400 returned before any database access, or the UPDATE with its
parameters. -/
inductive UpdateOutcome where
  | badRequest (msg : String)
  | update (ps : List JsVal)
deriving DecidableEq

/-- The SET parameters of the UPDATE issued by the update route, ending
with the path id. -/
def updateParamsOf (b : Body) (normalizedTime : JsVal) (id : String) : List JsVal :=
  [b.customerName, b.contactNumber, b.eventDate, normalizedTime, b.branch,
    b.selectedPackage, b.amount, b.celebrationType, .str id]

/-- PUT /api/bookings/:id up to its database call (lines 190-227): the
truthiness guard, then the contact, date and time format checks, with
an HH:MM:SS time truncated to HH:MM. -/
def putValidate (id : String) (b : Body) : UpdateOutcome :=
  if !truthy b.customerName || !truthy b.contactNumber || !truthy b.eventDate ||
      !truthy b.eventTime || !truthy b.branch || !truthy b.selectedPackage ||
      !truthy b.amount || !truthy b.celebrationType then
    .badRequest "All fields required"
  else if !contactFormatOk (jsToString b.contactNumber) then
    .badRequest "Invalid contact number: Must be 10 digits"
  else if !dateFormatOk (jsToString b.eventDate) then
    .badRequest "Invalid date format: Use YYYY-MM-DD"
  else if timeFormatHHMMSS (jsToString b.eventTime) then
    .update (updateParamsOf b (.str (strTake (jsToString b.eventTime) 5)) id)
  else if timeFormatHHMM (jsToString b.eventTime) then
    .update (updateParamsOf b b.eventTime id)
  else .badRequest "Invalid time format: Use HH:MM or HH:MM:SS"

/-! ## The two-phase create flow (lines 177-182) -/

/-- The follow-up statement stamping the derived identifier. -/
def updateUniqueIdSql : String := "UPDATE bookings SET uniqueId = ? WHERE id = ?"

/-- Observable result of a create whose INSERT succeeded with the given
database-assigned id: the INSERT parameters, the bookingId of the 201
response, and the follow-up UPDATE with its parameters. -/
inductive CreateFlowResult where
  | rejected (msg : String)
  | created (insertPs : List JsVal) (bookingId : String)
      (followUpSql : String) (followUpPs : List JsVal)
deriving DecidableEq

/-- POST /api/bookings through both database calls, given the id the
database assigned to the inserted row. -/
def createBooking (b : Body) (insertId : Nat) : CreateFlowResult :=
  match postValidate b with
  | .badRequest m => .rejected m
  | .insert ps =>
    let bookingId := jsPadStart (jsNatToString insertId) 5 '0'
    .created ps bookingId updateUniqueIdSql
      [JsVal.str bookingId, JsVal.num (Int.ofNat insertId)]

/-! ## GET /api/notifications (lines 260-300) -/

/-- Comparison of two stored HH:MM times as character sequences; on the
fixed-width storage format this is the chronological order the SQL
ORDER BY eventTime ASC uses. -/
def timeLeChars : List Char → List Char → Bool
  | [], _ => true
  | _ :: _, [] => false
  | a :: as, b :: bs =>
    if a.toNat < b.toNat then true
    else if b.toNat < a.toNat then false
    else timeLeChars as bs

/-- Order on bookings by eventTime. -/
def timeLe (a b : Booking) : Bool :=
  timeLeChars a.eventTime.data b.eventTime.data

/-- Insert one booking into a list ordered by eventTime. -/
def insertByTime (b : Booking) : List Booking → List Booking
  | [] => [b]
  | x :: xs => if timeLe b x then b :: x :: xs else x :: insertByTime b xs

/-- Semantics of ORDER BY eventTime ASC: sort the selected rows. -/
def sortByTime : List Booking → List Booking
  | [] => []
  | x :: xs => insertByTime x (sortByTime xs)

/-- Each adjacent pair of rows is in eventTime order. -/
def timesSorted : List Booking → Bool
  | [] => true
  | [_] => true
  | a :: b :: rest => timeLe a b && timesSorted (b :: rest)

/-- The statement text of the notifications route. -/
def notificationsQuery : String :=
  "\n        SELECT id, uniqueId, customerName, contactNumber, \n               DATE_FORMAT(eventDate, " ++
    sqlQuote ++ "%d-%m-%Y" ++ sqlQuote ++ ") AS eventDate, \n               TIME_FORMAT(eventTime, " ++
    sqlQuote ++ "%H:%i" ++ sqlQuote ++ ") AS eventTime, \n               branch, selectedPackage, amount, celebrationType \n        FROM bookings \n        WHERE eventDate = ?\n        ORDER BY eventTime ASC\n    "

/-- Observable outcome of the notifications route: every statement the
handler issued, the HTTP status, and the bookings of the body. -/
structure NotifResponse where
  issuedQueries : List (String × List Val)
  status : Nat
  bookings : List Booking
deriving DecidableEq

/-- GET /api/notifications under a successfully answering database. The
admin gate is the strict string comparison of the query parameter with
true; tomorrowDate is the computed next-day ISO date. -/
def notificationsHandler (admin : Option String) (tomorrowDate : String)
    (db : List Booking) : NotifResponse :=
  if !(admin == some "true") then ⟨[], 403, []⟩
  else
    ⟨[(notificationsQuery, [.vstr tomorrowDate])], 200,
      sortByTime (db.filter fun b => b.eventDate == tomorrowDate)⟩

/-! ## Sample data used by the concrete evaluations -/

/-- Model of a string ending in the given suffix. -/
def strEndsWith (s pat : String) : Bool :=
  pat.data.isSuffixOf s.data

/-- An environment whose first two attempts fail with a closed-state
message and whose third attempt succeeds. -/
def envTwoClosed : Nat → Outcome :=
  fun n => if n < 2 then .failure "connection is in closed state"
    else .success (QueryResult.rows [7])

/-- A fully truthy, fully well-formed request body. -/
def goodBody : Body :=
  ⟨.str "Asha", .str "1234567890", .str "2025-03-10", .str "10:00",
    .str "Baner", .str "Gold", .num 5000, .str "Birthday"⟩

/-- A body whose fields are all truthy but whose contact number is not
ten digits. -/
def bodyBadContact : Body :=
  ⟨.str "Asha", .str "123", .str "2025-03-10", .str "10:00",
    .str "Baner", .str "Gold", .num 5000, .str "Birthday"⟩

/-- A body whose amount is the number zero: present but falsy. -/
def bodyZeroAmount : Body :=
  ⟨.str "Asha", .str "1234567890", .str "2025-03-10", .str "10:00",
    .str "Baner", .str "Gold", .num 0, .str "Birthday"⟩

/-- A booking on 2025-03-10 at the Baner branch. -/
def bookingBaner : Booking :=
  ⟨1, "00001", "Asha", "1234567890", "2025-03-10", "10:00", "Baner",
    "Gold", 5000, "Birthday"⟩

/-- A booking on the same date at the Kothrud branch. -/
def bookingKothrud : Booking :=
  ⟨2, "00002", "Ravi", "1234567890", "2025-03-10", "11:00", "Kothrud",
    "Gold", 5000, "Birthday"⟩

/-- A two-row database with one booking per branch on the same date. -/
def sampleDb : List Booking := [bookingBaner, bookingKothrud]

/-- Specification-side reading of the filter result for a date request:
rows with the given event date, narrowed to the branch when a branch
parameter is active. -/
def branchPredSpec (branch : Option String) (b : Booking) : Bool :=
  if optTruthy branch && (branch.getD "" != "All") then b.branch == branch.getD ""
  else true

/-- Is a fragment the branch predicate? -/
def isBranchCond : Cond → Bool
  | .branchEq _ => true
  | _ => false

/-! ## Helper lemmas -/

/-- A body passing the truthiness guard reaches the INSERT with the
eight destructured fields, in column order. -/
theorem postValidate_insert (b : Body) (h : requiredAllTruthy b = true) :
    postValidate b = .insert (insertParamsOf b) := by
  simp only [requiredAllTruthy, Bool.and_eq_true, and_assoc] at h
  obtain ⟨h1, h2, h3, h4, h5, h6, h7, h8⟩ := h
  simp [postValidate, h1, h2, h3, h4, h5, h6, h7, h8]

/-! ## C1 -/

/-- C1 (code bug): when every attempt fails with a closed-state error,
queryWithRetry with its default budget of 3 raises the third error
after three attempts and two one-second waits, rather than returning
the empty-rows or zero-affected-rows value of the statement after the
loop: that statement is unreachable because the retries variable is
decremented only while it exceeds 1, so the loop guard retries > 0
never becomes false. The second conjunct records the value the
unreachable statement would have produced for this row-returning
statement. -/
theorem retry_exhaustion_throws_eval :
    queryWithRetry envAllClosed "SELECT id FROM bookings" =
      ⟨.error "connection is in closed state", 3, [1000, 1000]⟩ ∧
    retriesExhausted "SELECT id FROM bookings" = QueryResult.rows [] :=
  ⟨rfl, rfl⟩

/-! ## C4 -/

/-- C4: if the first two attempts fail with closed-state errors and the
third succeeds, queryWithRetry returns the third result, having issued
three attempts with a fixed 1000 millisecond wait before each of the
two retries, from the initial budget of 3; and a first failure whose
message does not contain the closed-state marker propagates at once,
after one attempt and no wait. -/
theorem retry_two_closed_then_success (sql m0 m1 : String) (q : QueryResult)
    (env : Nat → Outcome)
    (h0 : env 0 = .failure m0) (h1 : env 1 = .failure m1)
    (h2 : env 2 = .success q)
    (hc0 : strIncludes m0 "closed state" = true)
    (hc1 : strIncludes m1 "closed state" = true) :
    queryWithRetry env sql = ⟨.ok q, 3, [1000, 1000]⟩ ∧
    (∀ (env2 : Nat → Outcome) (msg : String), env2 0 = .failure msg →
      strIncludes msg "closed state" = false →
      queryWithRetry env2 sql = ⟨.error msg, 1, []⟩) := by
  constructor
  · simp [queryWithRetry, queryWithRetryAux, h0, h1, h2, hc0, hc1]
  · intro env2 msg he hm
    simp [queryWithRetry, queryWithRetryAux, he, hm]

/-- Concrete instantiation of the retry-policy theorem. -/
theorem retry_two_closed_then_success_witness :
    (envTwoClosed 0 = .failure "connection is in closed state" ∧
      envTwoClosed 1 = .failure "connection is in closed state" ∧
      envTwoClosed 2 = .success (QueryResult.rows [7]) ∧
      strIncludes "connection is in closed state" "closed state" = true) ∧
    queryWithRetry envTwoClosed "SELECT 1" =
      ⟨.ok (QueryResult.rows [7]), 3, [1000, 1000]⟩ :=
  ⟨⟨rfl, rfl, rfl, by decide⟩,
    (retry_two_closed_then_success "SELECT 1" "connection is in closed state"
      "connection is in closed state" (QueryResult.rows [7]) envTwoClosed
      rfl rfl rfl (by decide) (by decide)).1⟩

/-! ## C8 -/

/-- C8: a notifications request whose admin parameter is not exactly
the string true is answered 403 with no database statement issued. -/
theorem notifications_non_admin_forbidden (admin : Option String)
    (td : String) (db : List Booking) (h : admin ≠ some "true") :
    notificationsHandler admin td db = ⟨[], 403, []⟩ := by
  have hb : (admin == some "true") = false := by
    simpa using h
  simp [notificationsHandler, hb]

/-- Concrete instantiation of the admin-gate theorem. -/
theorem notifications_non_admin_forbidden_witness :
    (some "True" ≠ some "true") ∧
    notificationsHandler (some "True") "2025-03-11" sampleDb = ⟨[], 403, []⟩ :=
  ⟨by decide,
    notifications_non_admin_forbidden (some "True") "2025-03-11" sampleDb (by decide)⟩

/-! ## C9 -/

/-- C9: the required-field guard of both write routes tests JavaScript
truthiness, not presence: a body whose required keys are all present
but one of whose values is falsy (the number 0, the empty string, or
null) is rejected with the 400 message All fields required, before any
database access. -/
theorem required_check_tests_truthiness (b : Body) (id : String)
    (hpresent : b.customerName ≠ .undef ∧ b.contactNumber ≠ .undef ∧
      b.eventDate ≠ .undef ∧ b.eventTime ≠ .undef ∧ b.branch ≠ .undef ∧
      b.selectedPackage ≠ .undef ∧ b.amount ≠ .undef ∧
      b.celebrationType ≠ .undef)
    (hfalsy : truthy b.customerName = false ∨ truthy b.contactNumber = false ∨
      truthy b.eventDate = false ∨ truthy b.eventTime = false ∨
      truthy b.branch = false ∨ truthy b.selectedPackage = false ∨
      truthy b.amount = false ∨ truthy b.celebrationType = false) :
    postValidate b = .badRequest "All fields required" ∧
    putValidate id b = .badRequest "All fields required" := by
  rcases hfalsy with h | h | h | h | h | h | h | h <;>
    exact ⟨by simp [postValidate, h], by simp [putValidate, h]⟩

/-- Concrete instantiation of the truthiness theorem, at a body whose
amount is the number zero. -/
theorem required_check_tests_truthiness_witness :
    ((bodyZeroAmount.customerName ≠ .undef ∧ bodyZeroAmount.contactNumber ≠ .undef ∧
      bodyZeroAmount.eventDate ≠ .undef ∧ bodyZeroAmount.eventTime ≠ .undef ∧
      bodyZeroAmount.branch ≠ .undef ∧ bodyZeroAmount.selectedPackage ≠ .undef ∧
      bodyZeroAmount.amount ≠ .undef ∧ bodyZeroAmount.celebrationType ≠ .undef) ∧
      truthy bodyZeroAmount.amount = false) ∧
    (postValidate bodyZeroAmount = .badRequest "All fields required" ∧
      putValidate "3" bodyZeroAmount = .badRequest "All fields required") :=
  ⟨⟨by decide, by decide⟩,
    required_check_tests_truthiness bodyZeroAmount "3" (by decide)
      (by decide)⟩

/-! ## C2 -/

/-- C2 (counterexample): a create body whose contactNumber is the
three-character string 123 — not ten digits — passes the only check
the create route performs, the truthiness guard, and reaches the
INSERT: the claim that such a create is rejected with 400 and writes
no row is false. -/
theorem post_invalid_contact_reaches_insert :
    contactFormatOk (jsToString bodyBadContact.contactNumber) = false ∧
    postValidate bodyBadContact = .insert (insertParamsOf bodyBadContact) := by
  decide

/-- C2 (amended): an update request whose contactNumber does not match
the ten-digit format is answered 400 before any database access; the
create route, by contrast, performs no contactNumber format check, and
any body passing its truthiness guard reaches the INSERT unchanged. -/
theorem contact_check_update_only :
    (∀ (id : String) (b : Body),
      contactFormatOk (jsToString b.contactNumber) = false →
      ∃ msg, putValidate id b = .badRequest msg) ∧
    (∀ b : Body, requiredAllTruthy b = true →
      postValidate b = .insert (insertParamsOf b)) := by
  constructor
  · intro id b h
    unfold putValidate
    rw [h]
    simp only [Bool.not_false, if_true]
    split
    · exact ⟨_, rfl⟩
    · exact ⟨_, rfl⟩
  · exact postValidate_insert

/-- Concrete instantiation of the contact-validation theorem. -/
theorem contact_check_update_only_witness :
    (contactFormatOk (jsToString bodyBadContact.contactNumber) = false ∧
      requiredAllTruthy bodyBadContact = true) ∧
    (∃ msg, putValidate "7" bodyBadContact = .badRequest msg) ∧
    postValidate bodyBadContact = .insert (insertParamsOf bodyBadContact) :=
  ⟨⟨by decide, by decide⟩,
    contact_check_update_only.1 "7" bodyBadContact (by decide),
    contact_check_update_only.2 bodyBadContact (by decide)⟩

/-! ## C3 -/

/-- A string passing the date-format check is nonempty, hence truthy. -/
theorem ne_empty_of_dateFormatOk {d : String} (h : dateFormatOk d = true) :
    (d != "") = true := by
  have hne : d ≠ "" := by
    intro he
    rw [he] at h
    exact absurd h (by decide)
  simpa [bne_iff_ne] using hne

/-- C3 (counterexample): with two bookings on 2025-03-10 at different
branches, a filter request for that date that also carries the Baner
branch answers 200 with only the Baner booking: the branch parameter
is not ignored when a date is given, so the response is not exactly
the set of bookings with that event date. -/
theorem filter_date_with_branch_narrows :
    filterHandler sampleDb (some "2025-03-10") none none (some "Baner") =
      .ok [bookingBaner] ∧
    sampleDb.filter (fun b => b.eventDate == "2025-03-10") =
      [bookingBaner, bookingKothrud] ∧
    ([bookingBaner] : List Booking) ≠ [bookingBaner, bookingKothrud] := by
  decide

/-- C3 (amended): when a well-formed date parameter is present, the
month and year parameters are ignored — the handler behaves as if they
were absent — and the predicate is event date equality conjoined with
the branch predicate when a branch other than All is supplied. -/
theorem filter_date_overrides_month_year (db : List Booking) (d : String)
    (month year branch : Option String) (h : dateFormatOk d = true) :
    filterHandler db (some d) month year branch =
      filterHandler db (some d) none none branch ∧
    buildFilter (some d) month year branch =
      .ok (Cond.dateEq d :: branchConds branch) ∧
    filterRows db (Cond.dateEq d :: branchConds branch) =
      db.filter (fun b => (b.eventDate == d) && branchPredSpec branch b) := by
  have hne := ne_empty_of_dateFormatOk h
  have hbuild : buildFilter (some d) month year branch =
      .ok (Cond.dateEq d :: branchConds branch) := by
    simp [buildFilter, optTruthy, hne, h]
  have hbuild2 : buildFilter (some d) none none branch =
      .ok (Cond.dateEq d :: branchConds branch) := by
    simp [buildFilter, optTruthy, hne, h]
  refine ⟨?_, hbuild, ?_⟩
  · simp [filterHandler, hbuild, hbuild2]
  · by_cases hb : (optTruthy branch && (branch.getD "" != "All")) = true
    · simp [filterRows, branchConds, branchPredSpec, hb, matchesCond]
    · simp [filterRows, branchConds, branchPredSpec, hb, matchesCond]

/-- Concrete instantiation of the date-precedence theorem: month and
year values that would otherwise be rejected are ignored because a
valid date is present, while the branch parameter still narrows the
result. -/
theorem filter_date_overrides_month_year_witness :
    dateFormatOk "2025-03-10" = true ∧
    (filterHandler sampleDb (some "2025-03-10") (some "0") (some "12")
        (some "Kothrud") =
      filterHandler sampleDb (some "2025-03-10") none none (some "Kothrud") ∧
    buildFilter (some "2025-03-10") (some "0") (some "12") (some "Kothrud") =
      .ok (Cond.dateEq "2025-03-10" :: branchConds (some "Kothrud")) ∧
    filterRows sampleDb (Cond.dateEq "2025-03-10" :: branchConds (some "Kothrud")) =
      sampleDb.filter
        (fun b => (b.eventDate == "2025-03-10") && branchPredSpec (some "Kothrud") b)) :=
  ⟨by decide,
    filter_date_overrides_month_year sampleDb "2025-03-10" (some "0") (some "12")
      (some "Kothrud") (by decide)⟩

/-! ## C6 -/

/-- Any successful build is the primary fragments, which contain no
branch predicate, followed by the branch step. -/
theorem buildFilter_ok_shape (date month year branch : Option String)
    (conds : List Cond)
    (h : buildFilter date month year branch = .ok conds) :
    ∃ cs, conds = cs ++ branchConds branch ∧
      cs.all (fun c => !isBranchCond c) = true := by
  unfold buildFilter at h
  by_cases h1 : optTruthy date = true
  · by_cases h2 : dateFormatOk (date.getD "") = true
    · simp only [h1, h2, if_true] at h
      exact ⟨[Cond.dateEq (date.getD "")], by simpa using h.symm, by
        simp [isBranchCond]⟩
    · simp [h1, h2] at h
  · by_cases h3 : (optTruthy month && optTruthy year) = true
    · by_cases h4 : ((jsParseInt (month.getD "")).isNone ||
          decide ((jsParseInt (month.getD "")).getD 0 < 1) ||
          decide ((jsParseInt (month.getD "")).getD 0 > 12) ||
          (jsParseInt (year.getD "")).isNone ||
          decide ((jsParseInt (year.getD "")).getD 0 < 1000)) = true
      · simp [h1, h3, h4] at h
      · simp only [h1, h3, h4, if_true, if_false, Bool.false_eq_true] at h
        refine ⟨[Cond.monthYearEq ((jsParseInt (month.getD "")).getD 0)
          ((jsParseInt (year.getD "")).getD 0)], ?_, by simp [isBranchCond]⟩
        simpa using h.symm
    · simp only [h1, h3, if_false, Bool.false_eq_true] at h
      exact ⟨[], by simpa using h.symm, by simp⟩

/-- C6: a filter request whose only parameter is the sentinel branch
value All builds the same predicate, and answers every database
identically, as a request with no parameters; and across all filter
requests, the branch predicate is omitted exactly when the branch
parameter has no usable value (absent or empty, hence falsy) or equals
All. -/
theorem branch_all_equivalent_no_filter :
    (∀ db : List Booking,
      filterHandler db none none none (some "All") =
        filterHandler db none none none none ∧
      buildFilter none none none (some "All") =
        buildFilter none none none none) ∧
    (∀ (date month year branch : Option String) (conds : List Cond),
      buildFilter date month year branch = .ok conds →
      ((conds.any isBranchCond = false) ↔
        (optTruthy branch = false ∨ branch.getD "" = "All"))) := by
  constructor
  · exact fun db => ⟨rfl, rfl⟩
  · intro date month year branch conds h
    obtain ⟨cs, rfl, hcs⟩ := buildFilter_ok_shape date month year branch conds h
    have hcsfalse : cs.any isBranchCond = false := by
      simp only [List.all_eq_true] at hcs
      simp only [List.any_eq_false]
      intro c hc
      simpa using hcs c hc
    rw [List.any_append, hcsfalse, Bool.false_or]
    by_cases hb : (optTruthy branch && (branch.getD "" != "All")) = true
    · rw [Bool.and_eq_true] at hb
      simp [branchConds, hb.1, hb.2, isBranchCond, bne_iff_ne.mp hb.2]
    · rw [Bool.and_eq_true] at hb
      push_neg at hb
      simp only [branchConds]
      by_cases ho : optTruthy branch = true
      · have : (branch.getD "" != "All") = false := by
          cases hgd : (branch.getD "" != "All")
          · rfl
          · exact absurd hgd (hb ho)
        have : branch.getD "" = "All" := by
          simpa [bne] using this
        simp [ho, this]
      · have : optTruthy branch = false := by
          cases hov : optTruthy branch
          · rfl
          · exact absurd hov ho
        simp [this]

/-- Concrete instantiation of the branch-sentinel theorem. -/
theorem branch_all_equivalent_no_filter_witness :
    (filterHandler sampleDb none none none (some "All") =
        filterHandler sampleDb none none none none ∧
      buildFilter none none none (some "All") =
        buildFilter none none none none) ∧
    (buildFilter none none none (some "All") = .ok [] ∧
      (([] : List Cond).any isBranchCond = false ↔
        (optTruthy (some "All") = false ∨ (some "All").getD "" = "All"))) :=
  ⟨branch_all_equivalent_no_filter.1 sampleDb,
    rfl,
    branch_all_equivalent_no_filter.2 none none none (some "All") [] rfl⟩

/-! ## C7 -/

/-- Substitution distributes over concatenation when the first part
consumes exactly its own parameters. -/
theorem substQmarks_append (a : List Char) (pa : List Val) (ra : List Char)
    (h : substQmarks a pa = some ra) (b : List Char) (pb : List Val) :
    substQmarks (a ++ b) (pa ++ pb) =
      (substQmarks b pb).map fun r => ra ++ r := by
  induction a generalizing pa ra with
  | nil =>
    cases pa with
    | nil =>
      simp only [substQmarks] at h
      injection h with h
      subst h
      simp
    | cons p ps => simp [substQmarks] at h
  | cons c cs ih =>
    cases hc : c == qMarkChar with
    | true =>
      cases pa with
      | nil => simp [substQmarks, hc] at h
      | cons p ps =>
        simp only [substQmarks, hc, if_true] at h
        obtain ⟨r0, hr0, hra⟩ := Option.map_eq_some'.mp h
        subst hra
        simp only [List.cons_append, substQmarks, hc, if_true, List.append_eq]
        rw [ih ps r0 hr0]
        cases substQmarks b pb <;> simp [List.append_assoc]
    | false =>
      simp only [substQmarks, hc, Bool.false_eq_true, if_false] at h
      obtain ⟨r0, hr0, hra⟩ := Option.map_eq_some'.mp h
      subst hra
      simp only [List.cons_append, substQmarks, hc, Bool.false_eq_true, if_false,
        List.append_eq]
      rw [ih pa r0 hr0]
      cases substQmarks b pb <;> simp

/-- Placeholder-free text consumes no parameters and is kept verbatim. -/
theorem substQmarks_text (l : List Char)
    (h : l.all (fun c => !(c == qMarkChar)) = true) :
    substQmarks l [] = some l := by
  induction l with
  | nil => rfl
  | cons c cs ih =>
    rw [List.all_cons, Bool.and_eq_true] at h
    have hc : (c == qMarkChar) = false := by
      simpa using h.1
    simp [substQmarks, hc, ih h.2]

/-- One placeholder after placeholder-free text binds exactly the one
value supplied for it. -/
theorem substQmarks_one (txt : List Char)
    (h : txt.all (fun c => !(c == qMarkChar)) = true) (p : Val) :
    substQmarks (txt ++ [qMarkChar]) [p] =
      some (txt ++ (renderVal p).data) := by
  have h0 := substQmarks_text txt h
  have happ := substQmarks_append txt [] txt h0 [qMarkChar] [p]
  simp only [List.nil_append] at happ
  rw [happ]
  have hone : substQmarks [qMarkChar] [p] = some (renderVal p).data := by
    simp [substQmarks]
  rw [hone]
  rfl

/-- Substituting the parameters of one fragment into that fragment
yields exactly its specification-side inline reading. -/
theorem substQmarks_frag (c : Cond) :
    substQmarks (condFragment c).data (condParams c) =
      some (condInlineSpec c).data := by
  cases c with
  | dateEq d =>
    have hdd : (" AND eventDate = ?").data =
        (" AND eventDate = ").data ++ [qMarkChar] := by decide
    rw [condFragment, condParams, hdd, condInlineSpec,
      substQmarks_one _ (by decide) (Val.vstr d), String.data_append]
  | branchEq b =>
    have hd : (" AND branch = ?").data =
        (" AND branch = ").data ++ [qMarkChar] := by decide
    rw [condFragment, condParams, hd, condInlineSpec,
      substQmarks_one _ (by decide) (Val.vstr b), String.data_append]
  | monthYearEq m y =>
    have hd : (" AND MONTH(eventDate) = ? AND YEAR(eventDate) = ?").data =
        ((" AND MONTH(eventDate) = ").data ++ [qMarkChar]) ++
          ((" AND YEAR(eventDate) = ").data ++ [qMarkChar]) := by decide
    rw [condFragment, condParams, hd]
    rw [show [Val.vint m, Val.vint y] = [Val.vint m] ++ [Val.vint y] from rfl]
    rw [substQmarks_append _ _ _ (substQmarks_one _ (by decide) (Val.vint m)) _ _]
    rw [substQmarks_one _ (by decide) (Val.vint y)]
    simp [condInlineSpec, String.data_append, List.append_assoc]

/-- Substituting the whole parameter list into the appended fragments
yields the inline reading of the clause list. -/
theorem substQmarks_frags (conds : List Cond) :
    substQmarks (fragsString conds).data (filterParams conds) =
      some (fragsInlineSpec conds).data := by
  induction conds with
  | nil => rfl
  | cons c cs ih =>
    rw [fragsString, filterParams, fragsInlineSpec, String.data_append,
      String.data_append]
    rw [substQmarks_append _ _ _ (substQmarks_frag c) _ _, ih]
    rfl

/-- Each fragment carries as many placeholders as it pushes values. -/
theorem count_frag (c : Cond) :
    (condFragment c).data.count qMarkChar = (condParams c).length := by
  cases c <;> simp [condFragment, condParams] <;> decide

/-- The appended fragments carry as many placeholders as the parameter
list is long. -/
theorem count_frags (conds : List Cond) :
    (fragsString conds).data.count qMarkChar = (filterParams conds).length := by
  induction conds with
  | nil => rfl
  | cons c cs ih =>
    rw [fragsString, filterParams, String.data_append, List.count_append,
      List.length_append, ih, count_frag]

/-- C7: for every parameter combination the builder accepts, the
statement text carries exactly as many placeholders as the parameter
list has entries, and substituting the parameters into the
placeholders from left to right reproduces the inline reading of the
clause list: the i-th parameter binds the i-th placeholder. -/
theorem filter_params_match_placeholders (date month year branch : Option String)
    (conds : List Cond)
    (h : buildFilter date month year branch = .ok conds) :
    (filterQueryString conds).data.count qMarkChar =
      (filterParams conds).length ∧
    substQmarks (filterQueryString conds).data (filterParams conds) =
      some (filterBaseQuery ++ fragsInlineSpec conds).data := by
  constructor
  · rw [filterQueryString, String.data_append, List.count_append, count_frags]
    have hbase : filterBaseQuery.data.count qMarkChar = 0 := by decide
    rw [hbase, Nat.zero_add]
  · rw [filterQueryString, String.data_append]
    have hbase : substQmarks filterBaseQuery.data [] = some filterBaseQuery.data :=
      substQmarks_text _ (by decide)
    have happ := substQmarks_append _ _ _ hbase (fragsString conds).data
      (filterParams conds)
    simp only [List.nil_append] at happ
    rw [happ, substQmarks_frags, String.data_append]
    rfl

/-- Concrete instantiation of the placeholder-binding theorem, on a
date-plus-branch request. -/
theorem filter_params_match_placeholders_witness :
    buildFilter (some "2025-03-10") none none (some "Baner") =
      .ok [Cond.dateEq "2025-03-10", Cond.branchEq "Baner"] ∧
    ((filterQueryString [Cond.dateEq "2025-03-10", Cond.branchEq "Baner"]).data.count
        qMarkChar =
      (filterParams [Cond.dateEq "2025-03-10", Cond.branchEq "Baner"]).length ∧
    substQmarks
        (filterQueryString [Cond.dateEq "2025-03-10", Cond.branchEq "Baner"]).data
        (filterParams [Cond.dateEq "2025-03-10", Cond.branchEq "Baner"]) =
      some (filterBaseQuery ++
        fragsInlineSpec [Cond.dateEq "2025-03-10", Cond.branchEq "Baner"]).data) :=
  ⟨rfl,
    filter_params_match_placeholders (some "2025-03-10") none none (some "Baner")
      [Cond.dateEq "2025-03-10", Cond.branchEq "Baner"] rfl⟩

/-! ## C5 -/

/-- The digit expansion of a number below the k-th power of ten has at
most k digits. -/
theorem natToChars_length_le (fuel : Nat) :
    ∀ (n k : Nat), n < 10 ^ k → (natToChars fuel n).length ≤ k := by
  induction fuel with
  | zero => intro n k _; simp [natToChars]
  | succ f ih =>
    intro n k h
    cases n with
    | zero => simp [natToChars]
    | succ m =>
      cases k with
      | zero => omega
      | succ k2 =>
        rw [natToChars, List.length_append]
        have hdiv : (m + 1) / 10 < 10 ^ k2 := by
          rw [Nat.div_lt_iff_lt_mul (by norm_num)]
          calc m + 1 < 10 ^ (k2 + 1) := h
            _ = 10 ^ k2 * 10 := by rw [Nat.pow_succ]
        have := ih ((m + 1) / 10) k2 hdiv
        simp only [List.length_cons, List.length_nil]
        omega

/-- The decimal form of an id below 100000 has at most five characters. -/
theorem jsNatToString_length_le (n : Nat) (h : n < 100000) :
    (jsNatToString n).length ≤ 5 := by
  by_cases h0 : n = 0
  · subst h0; decide
  · rw [jsNatToString, if_neg h0]
    exact natToChars_length_le n n 5 (by norm_num at h ⊢; omega)

/-- Padding a string of at most five characters to width five yields
exactly five characters. -/
theorem jsPadStart_length (s : String) (h : s.length ≤ 5) :
    (jsPadStart s 5 '0').length = 5 := by
  rw [jsPadStart]
  by_cases h5 : 5 ≤ s.length
  · rw [if_pos h5]; omega
  · rw [if_neg h5]
    rw [String.length_append]
    show (List.replicate (5 - s.length) '0').length + s.length = 5
    rw [List.length_replicate]
    omega

/-- A digit character of a value below ten decodes to that value. -/
theorem digitChar_decode (m : Nat) (h : m < 10) :
    (Nat.digitChar m).toNat - 48 = m := by
  interval_cases m <;> decide

/-- Folding one more digit onto a decimal reading multiplies by ten and
adds the digit. -/
theorem digitsToNat_snoc (a : List Char) (c : Char) :
    digitsToNat (a ++ [c]) = digitsToNat a * 10 + (c.toNat - 48) := by
  simp [digitsToNat, List.foldl_append]

/-- The digit expansion decodes to the number it was built from. -/
theorem digitsToNat_natToChars (fuel : Nat) :
    ∀ n : Nat, n ≤ fuel → digitsToNat (natToChars fuel n) = n := by
  induction fuel with
  | zero =>
    intro n h
    have : n = 0 := by omega
    subst this
    rfl
  | succ f ih =>
    intro n h
    cases n with
    | zero => rfl
    | succ m =>
      rw [natToChars, digitsToNat_snoc]
      have hdiv : (m + 1) / 10 ≤ f := by
        have := Nat.div_lt_self (Nat.succ_pos m) (by norm_num : 1 < 10)
        omega
      rw [ih _ hdiv, digitChar_decode _ (Nat.mod_lt _ (by norm_num))]
      omega

/-- Leading zero characters do not change the decoded value. -/
theorem digitsToNat_replicate_zero (k : Nat) (l : List Char) :
    digitsToNat (List.replicate k '0' ++ l) = digitsToNat l := by
  induction k with
  | zero => rfl
  | succ k2 ih =>
    rw [List.replicate_succ, List.cons_append]
    show List.foldl _ _ (('0' : Char) :: (List.replicate k2 '0' ++ l)) = _
    rw [List.foldl_cons]
    exact ih

/-- The padded booking identifier decodes back to the inserted id. -/
theorem bookingId_decodes (n : Nat) :
    digitsToNat (jsPadStart (jsNatToString n) 5 '0').data = n := by
  have hjs : digitsToNat (jsNatToString n).data = n := by
    by_cases h0 : n = 0
    · subst h0; rfl
    · rw [jsNatToString, if_neg h0]
      exact digitsToNat_natToChars n n (Nat.le_refl n)
  rw [jsPadStart]
  by_cases h5 : 5 ≤ (jsNatToString n).length
  · rw [if_pos h5]; exact hjs
  · rw [if_neg h5, String.data_append]
    show digitsToNat (List.replicate _ '0' ++ _) = n
    rw [digitsToNat_replicate_zero]
    exact hjs

/-- C5 (counterexample): a successful create whose database-assigned id
is 100000 responds with bookingId 100000, a six-character string: the
claim that the bookingId of every valid create is a five-digit string
fails for ids of six or more digits, which padStart does not shorten. -/
theorem booking_id_six_digits_at_100000 :
    createBooking goodBody 100000 =
      .created (insertParamsOf goodBody) "100000" updateUniqueIdSql
        [JsVal.str "100000", JsVal.num (Int.ofNat 100000)] ∧
    ("100000" : String).length ≠ 5 := by
  constructor
  · decide
  · decide

/-- C5 (amended): for every create passing validation, the bookingId of
the 201 response is the decimal form of the database-assigned id
left-padded with zeros to at least width five — hence exactly five
characters whenever the id is below 100000 — it decodes back to that
id, and the same string is stamped as uniqueId by the follow-up UPDATE
whose parameters are the bookingId and the id. -/
theorem booking_id_zero_padded (b : Body) (insertId : Nat)
    (h : requiredAllTruthy b = true) :
    createBooking b insertId =
      .created (insertParamsOf b) (jsPadStart (jsNatToString insertId) 5 '0')
        updateUniqueIdSql
        [JsVal.str (jsPadStart (jsNatToString insertId) 5 '0'),
          JsVal.num (Int.ofNat insertId)] ∧
    digitsToNat (jsPadStart (jsNatToString insertId) 5 '0').data = insertId ∧
    (insertId < 100000 →
      (jsPadStart (jsNatToString insertId) 5 '0').length = 5) := by
  refine ⟨?_, bookingId_decodes insertId,
    fun hlt => jsPadStart_length _ (jsNatToString_length_le _ hlt)⟩
  rw [createBooking, postValidate_insert b h]

/-- Concrete instantiation of the booking-identifier theorem at id 7:
the response carries 00007. -/
theorem booking_id_zero_padded_witness :
    requiredAllTruthy goodBody = true ∧
    (createBooking goodBody 7 =
      .created (insertParamsOf goodBody) (jsPadStart (jsNatToString 7) 5 '0')
        updateUniqueIdSql
        [JsVal.str (jsPadStart (jsNatToString 7) 5 '0'),
          JsVal.num (Int.ofNat 7)] ∧
    digitsToNat (jsPadStart (jsNatToString 7) 5 '0').data = 7 ∧
    (7 < 100000 → (jsPadStart (jsNatToString 7) 5 '0').length = 5)) ∧
    jsPadStart (jsNatToString 7) 5 '0' = "00007" :=
  ⟨by decide, booking_id_zero_padded goodBody 7 (by decide), by decide⟩

/-! ## C10 -/

/-- The character-wise time comparison is total. -/
theorem timeLeChars_total (a : List Char) :
    ∀ b : List Char, timeLeChars a b = true ∨ timeLeChars b a = true := by
  induction a with
  | nil => intro b; left; rfl
  | cons x xs ih =>
    intro b
    cases b with
    | nil => right; rfl
    | cons y ys =>
      by_cases h1 : x.toNat < y.toNat
      · left; simp [timeLeChars, h1]
      · by_cases h2 : y.toNat < x.toNat
        · right; simp [timeLeChars, h2]
        · rcases ih ys with h | h
          · left; simp [timeLeChars, h1, h2, h]
          · right; simp [timeLeChars, h1, h2, h]

/-- The booking time order is total. -/
theorem timeLe_total (a b : Booking) :
    timeLe a b = true ∨ timeLe b a = true :=
  timeLeChars_total a.eventTime.data b.eventTime.data

/-- Inserting into a time-sorted list keeps it time-sorted. -/
theorem timesSorted_insert (b : Booking) (l : List Booking)
    (h : timesSorted l = true) :
    timesSorted (insertByTime b l) = true := by
  induction l with
  | nil => rfl
  | cons x xs ih =>
    rw [insertByTime]
    by_cases hbx : timeLe b x = true
    · rw [if_pos hbx]
      show (timeLe b x && timesSorted (x :: xs)) = true
      rw [hbx, h]
      rfl
    · rw [if_neg hbx]
      have hxb : timeLe x b = true := (timeLe_total b x).resolve_left hbx
      cases xs with
      | nil =>
        show (timeLe x b && timesSorted [b]) = true
        rw [hxb]
        rfl
      | cons y ys =>
        have hparts : timeLe x y = true ∧ timesSorted (y :: ys) = true := by
          have hth := h
          rw [show timesSorted (x :: y :: ys) =
            (timeLe x y && timesSorted (y :: ys)) from rfl,
            Bool.and_eq_true] at hth
          exact hth
        have hins := ih hparts.2
        rw [insertByTime] at hins ⊢
        by_cases hby : timeLe b y = true
        · rw [if_pos hby] at hins ⊢
          show (timeLe x b && timesSorted (b :: y :: ys)) = true
          rw [hxb, hins]
          rfl
        · rw [if_neg hby] at hins ⊢
          show (timeLe x y && timesSorted (y :: insertByTime b ys)) = true
          rw [hparts.1, hins]
          rfl

/-- The sort used as the ORDER BY semantics produces a time-sorted
list. -/
theorem timesSorted_sortByTime (l : List Booking) :
    timesSorted (sortByTime l) = true := by
  induction l with
  | nil => rfl
  | cons x xs ih => exact timesSorted_insert x (sortByTime xs) ih

/-- C10: an authorized notifications request is answered 200 and its
bookings array is sorted by eventTime in ascending order; the issued
statement is the notifications query, whose text ends with the clause
ORDER BY eventTime ASC (up to the trailing whitespace of the template
literal). -/
theorem notifications_sorted_by_time (td : String) (db : List Booking) :
    (notificationsHandler (some "true") td db).status = 200 ∧
    timesSorted (notificationsHandler (some "true") td db).bookings = true ∧
    (notificationsHandler (some "true") td db).issuedQueries =
      [(notificationsQuery, [Val.vstr td])] ∧
    strEndsWith notificationsQuery ("ORDER BY eventTime ASC\n    ") = true ∧
    strIncludes notificationsQuery "ORDER BY eventTime ASC" = true := by
  refine ⟨rfl, ?_, rfl, by decide, by decide⟩
  show timesSorted (sortByTime (db.filter fun b => b.eventDate == td)) = true
  exact timesSorted_sortByTime _
